import Mathlib

/-!
Verification development for the ProLinkHub consultation-intake service.

Shallow embedding of the core logic:
* `app/services/pricing_service.py` — tonnage classifier, pricing matrix
  lookup, multi-system multiplier, system-count extraction.
* `app/routers/consultation.py` — submit-answers, image upload with the
  discount accumulator, estimate generation, one-time discount application.
* `app/routers/hvac_categories.py` — the seeded category registry.

Modelling conventions:
* Python strings are `String`; `needle in hay` is `strContains hay needle`
  (defined below over character lists).
* Python ints are `ℕ` (every price and discount in the program is a
  non-negative integer; `max(0, a - b)` on such values is `ℕ` subtraction).
* The float multiplier `int(p * 1.85)` is embedded as `p * 185 / 100` in ℕ.
  This agrees with IEEE-754 evaluation for every natural `p` in range: the
  exact product `p * 37/20` either is an integer (then the rounded double
  product is ≥ it and < the next integer, so `int` truncation recovers it)
  or has fractional part ≥ 1/20, far larger than the rounding error.
* Tonnages (2.5 etc.) are exactly representable floats compared only for
  equality and by subtraction of halves, so `ℚ` is a faithful model.
* The document store: an update with `$set` reports `modified_count = 0`
  exactly when the written fields already hold the written values; this is
  the standard semantics the submit-answers handler observes.
* Object storage (`S3Service.upload_file`) is modelled as succeeding and
  returning the storage key as the URL; OCR/LLM collaborators are outside
  every claim and are not modelled.
-/

namespace ProLinkHub

-- The rational-number operations of the standard library are marked
-- irreducible, which blocks kernel evaluation of decidable propositions
-- over ℚ; restore their default reducibility so that concrete runs of the
-- embedded code can be settled by `decide`.
unseal Rat.ofScientific Rat.mul Rat.add Rat.sub Rat.inv

-- Handler outcomes are compared for equality in concrete runs.
deriving instance DecidableEq for Except

/-- `leadEq needle l` : `needle` is a leading segment of `l`
(character-by-character equality). -/
def leadEq : List Char → List Char → Bool
  | [], _ => true
  | _ :: _, [] => false
  | a :: as, b :: bs => a == b && leadEq as bs

/-- `occursIn needle hay` : `needle` occurs contiguously somewhere in `hay`.
Embeds Python's substring test `needle in hay`. -/
def occursIn (needle : List Char) : List Char → Bool
  | [] => leadEq needle []
  | b :: bs => leadEq needle (b :: bs) || occursIn needle bs

/-- Python `needle in hay` on strings. -/
def strContains (hay needle : String) : Bool :=
  occursIn needle.toList hay.toList

/-- One Good/Better/Best price band: `{minPrice, maxPrice}`. -/
structure Tier where
  minPrice : ℕ
  maxPrice : ℕ
  deriving DecidableEq, Repr

/-- One row of the pricing matrix (`pricing_service.py` lines 10-35). -/
structure Row where
  tonnage : ℚ
  good : Tier
  better : Tier
  best : Tier
  deriving DecidableEq, Repr

/-- The seeded `PricingService.pricing_matrix`. -/
def pricingMatrix : List Row :=
  [ ⟨2.5, ⟨8500, 10500⟩, ⟨11000, 13000⟩, ⟨14000, 16500⟩⟩,
    ⟨3.5, ⟨9500, 11500⟩, ⟨13500, 15500⟩, ⟨17000, 19500⟩⟩,
    ⟨4.0, ⟨10500, 12500⟩, ⟨14500, 16500⟩, ⟨18000, 21000⟩⟩,
    ⟨5.0, ⟨11500, 14000⟩, ⟨15500, 18000⟩, ⟨19500, 23000⟩⟩ ]

/-- `PricingService.determine_tonnage` (`pricing_service.py` lines 37-49). -/
def determine_tonnage (square_footage : String) : ℚ :=
  if strContains square_footage "Under 1,500"
      || strContains square_footage.toLower "under 1500" then 2.5
  else if strContains square_footage "1,500 - 2,200"
      || strContains square_footage "1500-2200" then 3.5
  else if strContains square_footage "2,200 - 3,000"
      || strContains square_footage "2200-3000" then 4.0
  else if strContains square_footage "Over 3,000"
      || strContains square_footage.toLower "over 3000" then 5.0
  else 3.5

/-- Row returned for an empty matrix; never reached from the seeded state. -/
def dummyRow : Row := ⟨0, ⟨0, 0⟩, ⟨0, 0⟩, ⟨0, 0⟩⟩

/-- Index and distance of the first row minimising `|tonnage - t|`
(Python `min` keeps the earliest minimum). -/
def closestIdx (t : ℚ) : List Row → ℕ × ℚ
  | [] => (0, 0)
  | [r] => (0, |r.tonnage - t|)
  | r :: rs =>
    let p := closestIdx t rs
    if |r.tonnage - t| ≤ p.2 then (0, |r.tonnage - t|) else (p.1 + 1, p.2)

/-- Index of the row `get_pricing_for_tonnage` selects: first exact tonnage
match, else the nearest-neighbour row (earliest on ties). -/
def rowIdx (m : List Row) (t : ℚ) : ℕ :=
  match m.findIdx? (fun r => decide (r.tonnage = t)) with
  | some i => i
  | none => (closestIdx t m).1

/-- `PricingService.get_pricing_for_tonnage` (`pricing_service.py` 51-59). -/
def get_pricing_for_tonnage (m : List Row) (t : ℚ) : Row :=
  m.getD (rowIdx m t) dummyRow

/-- Python `int(p * 1.85)` on a non-negative integer price (see header). -/
def mul185 (p : ℕ) : ℕ := p * 185 / 100

/-- Multiply both bounds of a tier by 1.85, truncating. -/
def mulTier (t : Tier) : Tier := ⟨mul185 t.minPrice, mul185 t.maxPrice⟩

/-- `PricingService.apply_multi_system_multiplier`
(`pricing_service.py` lines 61-69). -/
def apply_multi_system_multiplier (r : Row) (system_count : ℕ) : Row :=
  if 2 ≤ system_count then
    { r with good := mulTier r.good, better := mulTier r.better,
             best := mulTier r.best }
  else r

/-- `PricingService.extract_system_count` (`pricing_service.py` 71-85). -/
def extract_system_count (s : String) : ℕ :=
  if s = "" then 1
  else if strContains s "1" then 1
  else if strContains s "2" then 2
  else if strContains s "3" then 3
  else if strContains s "4" then 4
  else 1

/-- One labelled tier of an estimate response. -/
structure TierQuote where
  label : String
  minPrice : ℕ
  maxPrice : ℕ
  deriving DecidableEq, Repr

/-- The estimate object built by `calculate_estimate` and stored under
`pricing_estimate`. The three optional fields are present only on the
discounted estimate (`discount_applied`, `completed_categories`) or on the
fallback estimate (`error`). -/
structure Estimate where
  good : TierQuote
  better : TierQuote
  best : TierQuote
  tonnage : ℚ
  systemCount : ℕ
  discount_applied : Option ℕ := none
  completed_categories : Option (List String) := none
  error : Option String := none
  deriving DecidableEq, Repr

/-- Estimate body for a final pricing row. -/
def mkEstimate (fin : Row) (t : ℚ) (count : ℕ) : Estimate :=
  { good := ⟨"Budget-Focused", fin.good.minPrice, fin.good.maxPrice⟩
    better := ⟨"Efficiency & Value", fin.better.minPrice, fin.better.maxPrice⟩
    best := ⟨"Ultimate Comfort", fin.best.minPrice, fin.best.maxPrice⟩
    tonnage := t
    systemCount := count }

/-- Steps B and C of `calculate_estimate` from an already-determined
tonnage, together with the resulting matrix state.  `base_pricing.copy()` in
the source is a *shallow* copy: the tier dicts of the selected row are
shared with `pricing_matrix`, so a multiplier application with
`system_count ≥ 2` mutates the matrix row in place.  The embedding threads
that state explicitly: the second component is the matrix after the call. -/
def calcFromTonnage (m : List Row) (t : ℚ) (count : ℕ) :
    Estimate × List Row :=
  let i := rowIdx m t
  let base := m.getD i dummyRow
  let fin := apply_multi_system_multiplier base count
  (mkEstimate fin t count, if 2 ≤ count then m.set i fin else m)

/-- `PricingService.calculate_estimate` (`pricing_service.py` 87-126),
with the matrix state threaded (see `calcFromTonnage`). -/
def calculate_estimate (m : List Row) (square_footage : String)
    (system_count : ℕ) : Estimate × List Row :=
  calcFromTonnage m (determine_tonnage square_footage) system_count

/-! ## Consultation data model (`consultation.py`, `hvac_categories.py`) -/

/-- A JSON answer value as it reaches the handlers.  Lists are modelled as
lists of strings (checkbox submissions); that is the only list shape the
validated flow produces. -/
inductive AnsVal where
  | vstr (s : String)
  | vnum (q : ℚ)
  | vlist (l : List String)
  | vnull
  deriving DecidableEq, Repr

/-- Python truthiness of an answer value. -/
def AnsVal.truthy : AnsVal → Bool
  | .vstr s => !(s == "")
  | .vnum q => !(q == 0)
  | .vlist l => !l.isEmpty
  | .vnull => false

/-- The stored per-question entry of `quiz_answers`
(`consultation.py` lines 116-121). -/
structure FormattedAnswer where
  question_text : String
  input_type : String
  order : ℕ
  answer : AnsVal
  deriving DecidableEq, Repr

/-- One stored image record (`consultation.py` lines 234-242).
The `created_at` timestamp is outside the model. -/
structure ImageRec where
  image_number : ℕ
  image_url : String
  original_filename : String
  category : String
  sub_category : String
  s3_key : String
  deriving DecidableEq, Repr

/-- A registry sub-category; only its key (and, for completion, the count
of declared sub-categories) is consumed by the core logic. -/
structure SubCat where
  key : String
  deriving DecidableEq, Repr

/-- One `hvac_categories` registry document.  The seeded
`discount_amount`s are the integers 150/50/25/500/200 (stored as floats in
the source; all arithmetic on them is exact). -/
structure CatEntry where
  category : String
  discount_amount : ℕ
  sub_categories : List SubCat
  deriving DecidableEq, Repr

/-- The registry seeded by `seed_hvac_categories`
(`hvac_categories.py` lines 42-130). -/
def seedRegistry : List CatEntry :=
  [ ⟨"outdoor_unit", 150, [⟨"big_picture"⟩, ⟨"data_plate"⟩]⟩,
    ⟨"power_hub", 50, [⟨"panel_cover"⟩, ⟨"inside_panel"⟩]⟩,
    ⟨"command_center", 25, [⟨"main_thermostat"⟩]⟩,
    ⟨"indoor_system", 500, [⟨"indoor_unit"⟩]⟩,
    ⟨"energy_bill", 200, [⟨"recent_bill"⟩]⟩ ]

/-- The consultation aggregate (one document of the `consultations`
collection).  `status` is the literal status string. -/
structure Consultation where
  status : String
  quiz_answers : List (String × FormattedAnswer)
  images : List ImageRec
  total_discount : ℕ
  completed_categories : List String
  pricing_estimate : Option Estimate
  original_pricing_estimate : Option Estimate
  deriving DecidableEq, Repr

/-- A freshly created session (`create_session`, `consultation.py` 33-46). -/
def freshConsultation : Consultation :=
  ⟨"pending", [], [], 0, [], none, none⟩

/-! ## Image upload and the discount accumulator -/

/-- Errors raised by `upload_hvac_image`, in the order its checks run. -/
inductive UploadErr where
  | prematureUpload
  | invalidCategory
  | invalidSubCategory
  | invalidFileType
  | imageLimit
  | duplicateCategory
  deriving DecidableEq, Repr

/-- `valid_categories` (`consultation.py` line 181). -/
def valid_categories : List String :=
  ["outdoor_unit", "power_hub", "command_center", "indoor_system", "energy_bill"]

/-- `valid_sub_categories` (`consultation.py` line 182). -/
def valid_sub_categories : List String :=
  ["big_picture", "data_plate", "panel_cover", "inside_panel",
   "main_thermostat", "indoor_unit", "recent_bill"]

/-- Number of stored images whose `category` field equals `c`
(the per-category tally of `consultation.py` lines 258-261). -/
def countCat (imgs : List ImageRec) (c : String) : ℕ :=
  (imgs.filter (fun i => i.category == c)).length

/-- The discount accumulator loop (`consultation.py` lines 268-278):
scan the registry in order, collecting the keys and discount amounts of
every category whose uploaded-image count reaches the number of its
declared sub-categories.  Returns `(completed_categories, total_discount)`. -/
def recomputeDiscount (reg : List CatEntry) (imgs : List ImageRec) :
    List String × ℕ :=
  reg.foldl
    (fun acc e =>
      if e.sub_categories.length ≤ countCat imgs e.category then
        (acc.1 ++ [e.category], acc.2 + e.discount_amount)
      else acc)
    ([], 0)

/-- The image record appended by a successful upload
(`consultation.py` lines 224-242): numbered after the existing images, with
the category-based storage key as its URL. -/
def uploadedImage (cid : String) (c : Consultation)
    (category sub_category filename : String) : ImageRec :=
  let n := c.images.length + 1
  let key := cid ++ "/hvac_images/" ++ category ++ "/" ++ sub_category
    ++ "_" ++ toString n
  ⟨n, key, filename, category, sub_category, key⟩

/-- `upload_hvac_image` (`consultation.py` lines 153-301) on an existing
consultation `c`, for a file with the given `content_type` and `filename`.
`cid` is the consultation's database id (used only inside the storage key);
the S3 upload is modelled as succeeding with the key as URL. -/
def upload_hvac_image (cid : String) (reg : List CatEntry) (c : Consultation)
    (category sub_category content_type filename : String) :
    Except UploadErr Consultation :=
  if ¬ (c.status = "answers_submitted" ∨ c.status = "estimate_ready" ∨
        c.status = "images_uploaded") then
    .error .prematureUpload
  else if category ∉ valid_categories then
    .error .invalidCategory
  else if sub_category ∉ valid_sub_categories then
    .error .invalidSubCategory
  else if ¬ content_type.startsWith "image/" then
    .error .invalidFileType
  else if 7 ≤ c.images.length then
    .error .imageLimit
  else if c.images.any
      (fun i => i.category == category && i.sub_category == sub_category) then
    .error .duplicateCategory
  else
    let imgs := c.images ++ [uploadedImage cid c category sub_category filename]
    let acc := recomputeDiscount reg imgs
    .ok { c with
      status := if c.status = "estimate_ready" then "estimate_ready"
                else "images_uploaded"
      images := imgs
      total_discount := acc.2
      completed_categories := acc.1 }

/-! ## Submit answers -/

/-- One question document of the `quiz_questions` collection.  A missing
`options` field and an empty options list are both falsy in the handler;
both are modelled as `[]`. -/
structure Question where
  qid : String
  question_text : String
  input_type : String
  options : List String
  is_required : Bool
  order : ℕ
  deriving DecidableEq, Repr

/-- Errors raised by `submit_consultation_answers`, with the text used in
their messages. -/
inductive SubmitErr where
  | missingRequired (question_text : String)
  | invalidQuestionId (qid : String)
  | notANumber (question_text : String)
  | notAList (question_text : String)
  | notAnOption (question_text : String)
  | invalidOptions (question_text : String)
  | updateFailed
  deriving DecidableEq, Repr

/-- Simplified recogniser for the decimal strings Python's `float()`
accepts: optional sign, then digits with at most one point.  (Python also
accepts exponents, `inf`/`nan` and underscores; no claim depends on
those.) -/
def decimalLit (s : String) : Bool :=
  let l := s.trim.toList
  let l := match l with
    | '+' :: r => r
    | '-' :: r => r
    | r => r
  let intPart := l.takeWhile Char.isDigit
  match l.dropWhile Char.isDigit with
  | [] => !intPart.isEmpty
  | '.' :: frac =>
      (!intPart.isEmpty || !frac.isEmpty) && frac.all Char.isDigit
  | _ => false

/-- Python `float(answer)` succeeds (`consultation.py` lines 92-99):
numbers always parse, strings parse when they are numeric literals, and
`None`/lists raise. -/
def floatParses : AnsVal → Bool
  | .vnum _ => true
  | .vstr s => decimalLit s
  | _ => false

/-- Python `isinstance(answer, list)`. -/
def AnsVal.isList : AnsVal → Bool
  | .vlist _ => true
  | _ => false

/-- The radio check (`consultation.py` line 109): the answer is a string
and one of the question's options. -/
def radioOk (q : Question) (a : AnsVal) : Bool :=
  match a with
  | .vstr s => q.options.contains s
  | _ => false

/-- The checkbox options scan (`consultation.py` lines 124-130): some
submitted option is not among the question's options. -/
def checkboxInvalid (q : Question) (a : AnsVal) : Bool :=
  match a with
  | .vlist l => l.any (fun o => !q.options.contains o)
  | _ => false

/-- Per-answer loop of `submit_consultation_answers`
(`consultation.py` lines 82-130): reject unknown question ids, validate the
answer against the question's `input_type`, and build the formatted
`quiz_answers` entries in submission order.  The first failure aborts the
whole submission. -/
def formatAnswers (questions : List Question) :
    List (String × AnsVal) → Except SubmitErr (List (String × FormattedAnswer))
  | [] => .ok []
  | (qid, a) :: rest =>
    match questions.find? (fun q => q.qid == qid) with
    | none => .error (.invalidQuestionId qid)
    | some q =>
      if q.input_type = "number" ∧ ¬ floatParses a then
        .error (.notANumber q.question_text)
      else if q.input_type = "checkbox" ∧ q.options ≠ [] ∧ ¬ a.isList then
        .error (.notAList q.question_text)
      else if q.input_type = "radio" ∧ q.options ≠ [] ∧ ¬ radioOk q a then
        .error (.notAnOption q.question_text)
      else if q.input_type = "checkbox" ∧ q.options ≠ [] ∧
          checkboxInvalid q a then
        .error (.invalidOptions q.question_text)
      else
        (formatAnswers questions rest).map
          (fun f => (qid, ⟨q.question_text, q.input_type, q.order, a⟩) :: f)

/-- The required-question scan (`consultation.py` lines 71-76): the first
required question without an answer, if any. -/
def missingRequired (questions : List Question)
    (answers : List (String × AnsVal)) : Option String :=
  (questions.find?
    (fun q => q.is_required && !(answers.any (fun p => p.1 == q.qid)))).map
    (fun q => q.question_text)

/-- `submit_consultation_answers` (`consultation.py` lines 48-151) on an
existing consultation.  The final `modified_count == 0` guard fails exactly
when the `$set` wrote values identical to the stored ones, i.e. when the
formatted answers equal the stored `quiz_answers` and the status is already
`answers_submitted`. -/
def submit_consultation_answers (questions : List Question)
    (c : Consultation) (answers : List (String × AnsVal)) :
    Except SubmitErr Consultation :=
  match missingRequired questions answers with
  | some qt => .error (.missingRequired qt)
  | none =>
    match formatAnswers questions answers with
    | .error e => .error e
    | .ok formatted =>
      if c.quiz_answers = formatted ∧ c.status = "answers_submitted" then
        .error .updateFailed
      else
        .ok { c with quiz_answers := formatted, status := "answers_submitted" }

/-! ## One-time discount application -/

/-- Errors raised by `update_estimate_with_discount`. -/
inductive DiscountErr where
  | noEstimate
  | alreadyApplied
  deriving DecidableEq, Repr

/-- `max(0, p - d)` on non-negative integers is truncated subtraction. -/
def clampSub (p d : ℕ) : ℕ := p - d

/-- The discounted estimate built at `consultation.py` lines 557-579:
every tier's bounds are `max(0, original - total_discount)`; labels,
tonnage and system count are kept, and the discount metadata is recorded. -/
def discountEstimate (e : Estimate) (d : ℕ) (cats : List String) : Estimate :=
  { good := ⟨e.good.label, clampSub e.good.minPrice d, clampSub e.good.maxPrice d⟩
    better := ⟨e.better.label, clampSub e.better.minPrice d,
               clampSub e.better.maxPrice d⟩
    best := ⟨e.best.label, clampSub e.best.minPrice d, clampSub e.best.maxPrice d⟩
    tonnage := e.tonnage
    systemCount := e.systemCount
    discount_applied := some d
    completed_categories := some cats }

/-- `update_estimate_with_discount` (`consultation.py` lines 510-606) on an
existing consultation.  Returns the updated consultation together with the
estimate reported to the caller. -/
def update_estimate_with_discount (c : Consultation) :
    Except DiscountErr (Consultation × Estimate) :=
  match c.pricing_estimate with
  | none => .error .noEstimate
  | some e =>
    if c.original_pricing_estimate ≠ none then
      .error .alreadyApplied
    else if c.total_discount = 0 then
      .ok (c, e)
    else
      let de := discountEstimate e c.total_discount c.completed_categories
      .ok ({ c with pricing_estimate := some de,
                    original_pricing_estimate := some e }, de)

/-! ## Estimate generation -/

/-- The hardcoded fallback estimate (`consultation.py` lines 439-460). -/
def fallbackEstimate : Estimate :=
  { good := ⟨"Budget-Focused", 9500, 11500⟩
    better := ⟨"Efficiency & Value", 13500, 15500⟩
    best := ⟨"Ultimate Comfort", 17000, 19500⟩
    tonnage := 3.5
    systemCount := 1
    error := some "Pricing calculation error" }

/-- The answer scan of `calculate_pricing_estimate` (`consultation.py`
lines 414-423): walk the stored answers in order and keep the last answer
whose question text contains "square footage" and the last whose question
text contains "how many separate systems" (case-insensitive, `elif` chain;
the project-goal branch binds a variable the computation never uses). -/
def pickStep (acc : Option AnsVal × Option AnsVal)
    (p : String × FormattedAnswer) : Option AnsVal × Option AnsVal :=
  let qt := p.2.question_text.toLower
  if strContains qt "square footage" then (some p.2.answer, acc.2)
  else if strContains qt "how many separate systems" then
    (acc.1, some p.2.answer)
  else acc

/-- See `pickStep`. -/
def pickAnswers (qa : List (String × FormattedAnswer)) :
    Option AnsVal × Option AnsVal :=
  qa.foldl pickStep (none, none)

/-- `extract_system_count` applied to the raw scanned answer
(`consultation.py` line 426, outside the `try` block).  A falsy value
returns 1; a string goes through the digit scan; a non-empty list is
scanned by Python's `in` as element membership; a truthy number makes
`"1" in answer` raise `TypeError`, which this handler does not catch. -/
def extractSystemCountAns : Option AnsVal → Except Unit ℕ
  | none => .ok 1
  | some a =>
    if ¬ a.truthy then .ok 1
    else
      match a with
      | .vstr s => .ok (extract_system_count s)
      | .vlist l =>
        .ok (if l.contains "1" then 1
             else if l.contains "2" then 2
             else if l.contains "3" then 3
             else if l.contains "4" then 4
             else 1)
      | .vnum _ => .error ()
      | .vnull => .ok 1

/-- The guarded pricing call of `calculate_pricing_estimate`
(`consultation.py` lines 429-460): resolve
`square_footage_text or "1,500 - 2,200 sq ft"`, run
`calculate_estimate`, and replace any exception raised inside the `try`
block by the fallback estimate.  A falsy scanned value yields the default
label; a truthy string is passed through; a truthy number raises inside
`determine_tonnage` (caught, fallback); a truthy list raises
`AttributeError` at `.lower()` unless its first membership test
`"Under 1,500" in answer` already succeeded, in which case the computation
proceeds with tonnage 2.5. -/
def guardedCalc (m : List Row) (sq : Option AnsVal) (count : ℕ) :
    Estimate × List Row :=
  match sq with
  | some (.vstr s) =>
    if s = "" then calculate_estimate m "1,500 - 2,200 sq ft" count
    else calculate_estimate m s count
  | some (.vnum q) =>
    if q = 0 then calculate_estimate m "1,500 - 2,200 sq ft" count
    else (fallbackEstimate, m)
  | some (.vlist l) =>
    if l.isEmpty then calculate_estimate m "1,500 - 2,200 sq ft" count
    else if l.contains "Under 1,500" then calcFromTonnage m 2.5 count
    else (fallbackEstimate, m)
  | some .vnull => calculate_estimate m "1,500 - 2,200 sq ft" count
  | none => calculate_estimate m "1,500 - 2,200 sq ft" count

/-- `calculate_pricing_estimate` (`consultation.py` lines 405-460) with the
pricing-matrix state threaded.  An uncaught `TypeError` from
`extract_system_count` surfaces as an error. -/
def calculate_pricing_estimate (m : List Row)
    (qa : List (String × FormattedAnswer)) :
    Except Unit (Estimate × List Row) :=
  let picked := pickAnswers qa
  match extractSystemCountAns picked.2 with
  | .error e => .error e
  | .ok count => .ok (guardedCalc m picked.1 count)

/-- Errors surfaced by the `generate_pricing_estimate` endpoint. -/
inductive GenErr where
  | missingAnswers
  | internalError
  deriving DecidableEq, Repr

/-- `generate_pricing_estimate` (`consultation.py` lines 462-508) on an
existing consultation, threading the pricing-matrix state. -/
def generate_pricing_estimate (m : List Row) (c : Consultation) :
    Except GenErr (Consultation × List Row) :=
  if c.quiz_answers = [] then .error .missingAnswers
  else
    match calculate_pricing_estimate m c.quiz_answers with
    | .error _ => .error .internalError
    | .ok em =>
      .ok ({ c with pricing_estimate := some em.1, status := "estimate_ready" },
           em.2)

/-! ## Derived specification functions and concrete fixtures -/

/-- `true` on the `ok` branch of an `Except`. -/
def isOkE {ε α : Type} : Except ε α → Bool
  | .ok _ => true
  | .error _ => false

/-- The answer value is a JSON string. -/
def AnsVal.isStr : AnsVal → Bool
  | .vstr _ => true
  | _ => false

/-- Specification form of the completed-category keys: the registry
categories, in registry order, whose uploaded-image count reaches the
number of their declared sub-categories. -/
def completedList (reg : List CatEntry) (imgs : List ImageRec) : List String :=
  (reg.filter
    (fun e => e.sub_categories.length ≤ countCat imgs e.category)).map
    (fun e => e.category)

/-- Specification form of the total discount: the sum of `discount_amount`
over the completed categories. -/
def discountSum (reg : List CatEntry) (imgs : List ImageRec) : ℕ :=
  ((reg.filter
    (fun e => e.sub_categories.length ≤ countCat imgs e.category)).map
    (fun e => e.discount_amount)).sum

/-- A session that has just submitted answers and uploaded nothing. -/
def demoC : Consultation := ⟨"answers_submitted", [], [], 0, [], none, none⟩

/-- A one-question catalog (the seeded required name question). -/
def qCatalog : List Question :=
  [⟨"q1", "What is your full name?", "text", [], true, 1⟩]

/-- A concrete submission for `qCatalog`. -/
def bobAnswers : List (String × AnsVal) := [("q1", .vstr "Bob")]

/-- The consultation after `bobAnswers` is submitted to a fresh session. -/
def bobConsultation : Consultation :=
  { freshConsultation with
    status := "answers_submitted"
    quiz_answers := [("q1", ⟨"What is your full name?", "text", 1, .vstr "Bob"⟩)] }

/-- A session whose stored system-count answer is the JSON number 2 (a
`number`- or `text`-typed question both store the raw value). -/
def numericCountC : Consultation :=
  ⟨"answers_submitted",
   [("q7", ⟨"How many separate systems control the home temperature?",
            "radio", 7, .vnum 2⟩)],
   [], 0, [], none, none⟩

/-- The end-to-end session of §8 of the spec: square footage
"1,500 - 2,200 sq ft" and system-count answer "1". -/
def stringAnswersC : Consultation :=
  ⟨"answers_submitted",
   [("q6", ⟨"Approximate square footage of the area this system heats and cools?",
            "radio", 6, .vstr "1,500 - 2,200 sq ft"⟩),
    ("q7", ⟨"How many separate systems control the home temperature?",
            "radio", 7, .vstr "1"⟩)],
   [], 0, [], none, none⟩

/-! ## Helper lemmas -/

theorem occursIn_singleton (c : Char) (l : List Char) :
    occursIn [c] l = l.contains c := by
  induction l with
  | nil => rfl
  | cons b bs ih =>
    simp only [occursIn, leadEq, Bool.and_true, ih]
    by_cases h : c = b <;> simp [h]

theorem strContains_singleton (s : String) (c : Char) :
    strContains s (String.mk [c]) = s.toList.contains c :=
  occursIn_singleton c s.toList

/-- `int(p * 1.85)` agrees with natural division by 100 after scaling. -/
theorem mul185_floor (p : ℕ) : mul185 p = ⌊(p : ℚ) * 1.85⌋₊ := by
  have h185 : (1.85 : ℚ) = 185 / 100 := by norm_num
  have h : (p : ℚ) * (185 / 100) = ((p * 185 : ℕ) : ℚ) / ((100 : ℕ) : ℚ) := by
    push_cast
    ring
  rw [h185, h, Nat.floor_div_eq_div]
  rfl

/-! ## C1 — the pricing table is not fixed state -/

/-- C1: refuted / code bug.  The spec requires the 4-row pricing matrix to
be fixed state, but `calculate_estimate` copies the selected row only
shallowly, so one call with a system count ≥ 2 multiplies the matrix row in
place: afterwards `get_pricing_for_tonnage 3.5` returns the 1.85-scaled
prices instead of the seed fixture. -/
theorem C1_pricing_matrix_mutated :
    get_pricing_for_tonnage pricingMatrix 3.5 =
      ⟨3.5, ⟨9500, 11500⟩, ⟨13500, 15500⟩, ⟨17000, 19500⟩⟩
    ∧ get_pricing_for_tonnage
        (calculate_estimate pricingMatrix "1,500 - 2,200 sq ft" 2).2 3.5 =
      ⟨3.5, ⟨17575, 21275⟩, ⟨24975, 28675⟩, ⟨31450, 36075⟩⟩
    ∧ (calculate_estimate pricingMatrix "1,500 - 2,200 sq ft" 2).2
        ≠ pricingMatrix := by
  refine ⟨by decide!, by decide!, by decide!⟩

/-! ## C7 — tonnage classifier -/

/-- C7: counterexample.  The input "UNDER 1,500" contains the label
"Under 1,500" up to case, yet the classifier returns the 3.5 fallback: the
comma'd label is matched case-sensitively. -/
theorem C7_counterexample :
    strContains "UNDER 1,500".toLower "Under 1,500".toLower = true
    ∧ determine_tonnage "UNDER 1,500" = 3.5
    ∧ (3.5 : ℚ) ≠ 2.5 := by
  refine ⟨by decide!, by decide!, by decide!⟩

/-- C7 amended: `determine_tonnage` is total with range {2.5, 3.5, 4.0, 5.0}
and maps the four labels as written; the comma'd labels match
case-sensitively, while the comma-free forms "under 1500" / "over 3000"
match case-insensitively; any input matching none of the eight substring
tests falls back to 3.5. -/
theorem C7_amended_determine_tonnage :
    (∀ s : String, determine_tonnage s = 2.5 ∨ determine_tonnage s = 3.5 ∨
      determine_tonnage s = 4.0 ∨ determine_tonnage s = 5.0)
    ∧ (determine_tonnage "Under 1,500" = 2.5
       ∧ determine_tonnage "1,500 - 2,200" = 3.5
       ∧ determine_tonnage "2,200 - 3,000" = 4.0
       ∧ determine_tonnage "Over 3,000" = 5.0)
    ∧ (∀ s : String, strContains s.toLower "under 1500" = true →
        determine_tonnage s = 2.5)
    ∧ (∀ s : String,
        strContains s "Under 1,500" = false →
        strContains s.toLower "under 1500" = false →
        strContains s "1,500 - 2,200" = false →
        strContains s "1500-2200" = false →
        strContains s "2,200 - 3,000" = false →
        strContains s "2200-3000" = false →
        strContains s "Over 3,000" = false →
        strContains s.toLower "over 3000" = false →
        determine_tonnage s = 3.5) := by
  refine ⟨?_, by decide!, ?_, ?_⟩
  · intro s
    unfold determine_tonnage
    split_ifs <;> simp
  · intro s h
    unfold determine_tonnage
    simp [h]
  · intro s h1 h2 h3 h4 h5 h6 h7 h8
    unfold determine_tonnage
    simp [h1, h2, h3, h4, h5, h6, h7, h8]

theorem C7_amended_witness :
    determine_tonnage "UNDER 1500 sq ft" = 2.5
    ∧ determine_tonnage "five" = 3.5 :=
  ⟨C7_amended_determine_tonnage.2.2.1 "UNDER 1500 sq ft" (by decide!),
   C7_amended_determine_tonnage.2.2.2 "five" (by decide!) (by decide!)
     (by decide!) (by decide!) (by decide!) (by decide!) (by decide!) (by decide!)⟩

/-! ## C8 — multi-system multiplier -/

/-- C8: with a system count ≥ 2 every bound of every tier is multiplied by
1.85 and truncated (`Nat.floor`); a count of 0 or 1 leaves the row
unchanged; on the 3.5-ton row `good.minPrice` becomes
`floor(9500 * 1.85) = 17575`. -/
theorem C8_apply_multi_system_multiplier_spec :
    (∀ (r : Row) (count : ℕ), 2 ≤ count →
      apply_multi_system_multiplier r count =
        { r with
          good := ⟨⌊(r.good.minPrice : ℚ) * 1.85⌋₊,
                   ⌊(r.good.maxPrice : ℚ) * 1.85⌋₊⟩
          better := ⟨⌊(r.better.minPrice : ℚ) * 1.85⌋₊,
                     ⌊(r.better.maxPrice : ℚ) * 1.85⌋₊⟩
          best := ⟨⌊(r.best.minPrice : ℚ) * 1.85⌋₊,
                   ⌊(r.best.maxPrice : ℚ) * 1.85⌋₊⟩ })
    ∧ (∀ (r : Row) (count : ℕ), count = 0 ∨ count = 1 →
        apply_multi_system_multiplier r count = r)
    ∧ (apply_multi_system_multiplier
        (get_pricing_for_tonnage pricingMatrix 3.5) 2).good.minPrice = 17575
    ∧ ⌊(9500 : ℚ) * 1.85⌋₊ = 17575 := by
  refine ⟨?_, ?_, by decide!, ?_⟩
  · intro r count h
    unfold apply_multi_system_multiplier
    rw [if_pos h]
    unfold mulTier
    rw [mul185_floor, mul185_floor, mul185_floor, mul185_floor,
        mul185_floor, mul185_floor]
  · intro r count h
    rcases h with h | h <;> subst h <;> rfl
  · decide!

theorem C8_witness :
    apply_multi_system_multiplier
      ⟨3.5, ⟨9500, 11500⟩, ⟨13500, 15500⟩, ⟨17000, 19500⟩⟩ 2 =
      ⟨3.5, ⟨17575, 21275⟩, ⟨24975, 28675⟩, ⟨31450, 36075⟩⟩
    ∧ apply_multi_system_multiplier
      ⟨3.5, ⟨9500, 11500⟩, ⟨13500, 15500⟩, ⟨17000, 19500⟩⟩ 1 =
      ⟨3.5, ⟨9500, 11500⟩, ⟨13500, 15500⟩, ⟨17000, 19500⟩⟩ := by
  constructor
  · rw [C8_apply_multi_system_multiplier_spec.1 _ 2 (by decide)]
    rw [← mul185_floor, ← mul185_floor, ← mul185_floor, ← mul185_floor,
        ← mul185_floor, ← mul185_floor]
    rfl
  · exact C8_apply_multi_system_multiplier_spec.2.1 _ 1 (Or.inr rfl)

/-! ## C9 — system-count extraction -/

/-- C9: `extract_system_count` is total; it returns the first digit among
'1','2','3','4' in that priority order occurring anywhere in the text, and
1 on the empty string or when none occurs. -/
theorem C9_extract_system_count_spec :
    (∀ s : String, extract_system_count s =
      (if s.toList.contains '1' then 1
       else if s.toList.contains '2' then 2
       else if s.toList.contains '3' then 3
       else if s.toList.contains '4' then 4
       else 1))
    ∧ (∀ s : String, extract_system_count s ∈ [1, 2, 3, 4])
    ∧ extract_system_count "2 systems" = 2
    ∧ extract_system_count "" = 1
    ∧ extract_system_count "five" = 1 := by
  have key : ∀ s : String, extract_system_count s =
      (if s.toList.contains '1' then 1
       else if s.toList.contains '2' then 2
       else if s.toList.contains '3' then 3
       else if s.toList.contains '4' then 4
       else 1) := by
    intro s
    by_cases h : s = ""
    · subst h; rfl
    · unfold extract_system_count
      rw [if_neg h,
        show strContains s "1" = s.toList.contains '1' from
          occursIn_singleton '1' s.toList,
        show strContains s "2" = s.toList.contains '2' from
          occursIn_singleton '2' s.toList,
        show strContains s "3" = s.toList.contains '3' from
          occursIn_singleton '3' s.toList,
        show strContains s "4" = s.toList.contains '4' from
          occursIn_singleton '4' s.toList]
  refine ⟨key, ?_, by decide!, by decide!, by decide!⟩
  intro s
  rw [key s]
  split_ifs <;> decide

/-! ## C2 — one-time discount application -/

theorem clampSub_intCast (p d : ℕ) :
    ((clampSub p d : ℕ) : ℤ) = max 0 ((p : ℤ) - d) := by
  unfold clampSub
  omega

/-- C2: `update_estimate_with_discount` fails without an estimate; fails
with the conflict error once `original_pricing_estimate` is set; no-ops on
a zero discount without snapshotting; otherwise snapshots the estimate and
clamps every tier bound to `max(0, original - total_discount)`, and a
second call after a discounting call always hits the conflict error. -/
theorem C2_update_estimate_with_discount_spec :
    (∀ c : Consultation, c.pricing_estimate = none →
      update_estimate_with_discount c = .error .noEstimate)
    ∧ (∀ (c : Consultation) (e : Estimate), c.pricing_estimate = some e →
        c.original_pricing_estimate ≠ none →
        update_estimate_with_discount c = .error .alreadyApplied)
    ∧ (∀ (c : Consultation) (e : Estimate), c.pricing_estimate = some e →
        c.original_pricing_estimate = none → c.total_discount = 0 →
        update_estimate_with_discount c = .ok (c, e))
    ∧ (∀ (c : Consultation) (e : Estimate), c.pricing_estimate = some e →
        c.original_pricing_estimate = none → c.total_discount ≠ 0 →
        update_estimate_with_discount c =
          .ok ({ c with
                  pricing_estimate :=
                    some (discountEstimate e c.total_discount
                      c.completed_categories)
                  original_pricing_estimate := some e },
               discountEstimate e c.total_discount c.completed_categories))
    ∧ (∀ (e : Estimate) (d : ℕ) (cats : List String),
        ((discountEstimate e d cats).good.minPrice : ℤ)
            = max 0 ((e.good.minPrice : ℤ) - d)
        ∧ ((discountEstimate e d cats).good.maxPrice : ℤ)
            = max 0 ((e.good.maxPrice : ℤ) - d)
        ∧ ((discountEstimate e d cats).better.minPrice : ℤ)
            = max 0 ((e.better.minPrice : ℤ) - d)
        ∧ ((discountEstimate e d cats).better.maxPrice : ℤ)
            = max 0 ((e.better.maxPrice : ℤ) - d)
        ∧ ((discountEstimate e d cats).best.minPrice : ℤ)
            = max 0 ((e.best.minPrice : ℤ) - d)
        ∧ ((discountEstimate e d cats).best.maxPrice : ℤ)
            = max 0 ((e.best.maxPrice : ℤ) - d)
        ∧ (discountEstimate e d cats).good.label = e.good.label
        ∧ (discountEstimate e d cats).tonnage = e.tonnage
        ∧ (discountEstimate e d cats).systemCount = e.systemCount)
    ∧ (∀ (c c' : Consultation) (de : Estimate), c.total_discount ≠ 0 →
        update_estimate_with_discount c = .ok (c', de) →
        update_estimate_with_discount c' = .error .alreadyApplied) := by
  refine ⟨?_, ?_, ?_, ?_, ?_, ?_⟩
  · intro c h
    simp [update_estimate_with_discount, h]
  · intro c e h ho
    simp [update_estimate_with_discount, h, ho]
  · intro c e h ho hd
    simp [update_estimate_with_discount, h, ho, hd]
  · intro c e h ho hd
    simp [update_estimate_with_discount, h, ho, hd]
  · intro e d cats
    refine ⟨clampSub_intCast _ _, clampSub_intCast _ _, clampSub_intCast _ _,
      clampSub_intCast _ _, clampSub_intCast _ _, clampSub_intCast _ _,
      rfl, rfl, rfl⟩
  · intro c c' de hd h
    rcases hpe : c.pricing_estimate with _ | e
    · simp [update_estimate_with_discount, hpe] at h
    · by_cases ho : c.original_pricing_estimate = none
      · simp [update_estimate_with_discount, hpe, ho, hd] at h
        rw [← h.1]
        simp [update_estimate_with_discount]
      · simp [update_estimate_with_discount, hpe, ho] at h

theorem C2_witness :
    update_estimate_with_discount
      ⟨"estimate_ready", [], [], 0, [], some fallbackEstimate, none⟩ =
      .ok (⟨"estimate_ready", [], [], 0, [], some fallbackEstimate, none⟩,
           fallbackEstimate)
    ∧ update_estimate_with_discount freshConsultation = .error .noEstimate
    ∧ update_estimate_with_discount
        ⟨"estimate_ready", [], [], 150, ["outdoor_unit"],
         some fallbackEstimate, none⟩ =
      .ok ({ (⟨"estimate_ready", [], [], 150, ["outdoor_unit"],
              some fallbackEstimate, none⟩ : Consultation) with
              pricing_estimate :=
                some (discountEstimate fallbackEstimate 150 ["outdoor_unit"])
              original_pricing_estimate := some fallbackEstimate },
            discountEstimate fallbackEstimate 150 ["outdoor_unit"]) :=
  ⟨C2_update_estimate_with_discount_spec.2.2.1 _ fallbackEstimate rfl rfl rfl,
   C2_update_estimate_with_discount_spec.1 freshConsultation rfl,
   C2_update_estimate_with_discount_spec.2.2.2.1 _ fallbackEstimate rfl rfl
     (by decide)⟩

/-! ## C3 — upload validation and status transition -/

/-- C3: an upload on an existing session succeeds exactly when the status
allows uploads, the image cap is not reached, category and sub-category are
valid enum members, the (category, sub_category) pair is new, and the
content type is an image type; each violation yields its specific error,
and on success the image is appended and the status becomes
`images_uploaded` unless it was already `estimate_ready`. -/
theorem C3_upload_hvac_image_spec :
    ∀ (cid : String) (reg : List CatEntry) (c : Consultation)
      (category sub_category content_type filename : String),
    (isOkE (upload_hvac_image cid reg c category sub_category content_type
        filename) = true ↔
      ((c.status = "answers_submitted" ∨ c.status = "estimate_ready" ∨
          c.status = "images_uploaded")
        ∧ c.images.length < 7
        ∧ category ∈ valid_categories
        ∧ sub_category ∈ valid_sub_categories
        ∧ c.images.any (fun i => i.category == category &&
            i.sub_category == sub_category) = false
        ∧ content_type.startsWith "image/" = true))
    ∧ (∀ c', upload_hvac_image cid reg c category sub_category content_type
          filename = .ok c' →
        c'.images = c.images ++ [uploadedImage cid c category sub_category
          filename]
        ∧ c'.status = (if c.status = "estimate_ready" then "estimate_ready"
            else "images_uploaded")
        ∧ c'.quiz_answers = c.quiz_answers
        ∧ c'.pricing_estimate = c.pricing_estimate
        ∧ c'.original_pricing_estimate = c.original_pricing_estimate)
    ∧ (¬ (c.status = "answers_submitted" ∨ c.status = "estimate_ready" ∨
          c.status = "images_uploaded") →
        upload_hvac_image cid reg c category sub_category content_type
          filename = .error .prematureUpload)
    ∧ ((c.status = "answers_submitted" ∨ c.status = "estimate_ready" ∨
          c.status = "images_uploaded") →
        category ∉ valid_categories →
        upload_hvac_image cid reg c category sub_category content_type
          filename = .error .invalidCategory)
    ∧ ((c.status = "answers_submitted" ∨ c.status = "estimate_ready" ∨
          c.status = "images_uploaded") →
        category ∈ valid_categories → sub_category ∉ valid_sub_categories →
        upload_hvac_image cid reg c category sub_category content_type
          filename = .error .invalidSubCategory)
    ∧ ((c.status = "answers_submitted" ∨ c.status = "estimate_ready" ∨
          c.status = "images_uploaded") →
        category ∈ valid_categories → sub_category ∈ valid_sub_categories →
        content_type.startsWith "image/" = false →
        upload_hvac_image cid reg c category sub_category content_type
          filename = .error .invalidFileType)
    ∧ ((c.status = "answers_submitted" ∨ c.status = "estimate_ready" ∨
          c.status = "images_uploaded") →
        category ∈ valid_categories → sub_category ∈ valid_sub_categories →
        content_type.startsWith "image/" = true → 7 ≤ c.images.length →
        upload_hvac_image cid reg c category sub_category content_type
          filename = .error .imageLimit)
    ∧ ((c.status = "answers_submitted" ∨ c.status = "estimate_ready" ∨
          c.status = "images_uploaded") →
        category ∈ valid_categories → sub_category ∈ valid_sub_categories →
        content_type.startsWith "image/" = true → c.images.length < 7 →
        c.images.any (fun i => i.category == category &&
          i.sub_category == sub_category) = true →
        upload_hvac_image cid reg c category sub_category content_type
          filename = .error .duplicateCategory) := by
  intro cid reg c category sub_category content_type filename
  refine ⟨?_, ?_, ?_, ?_, ?_, ?_, ?_, ?_⟩
  · unfold upload_hvac_image isOkE
    split_ifs with h1 h2 h3 h4 h5 h6 <;> simp_all
  · intro c' h
    unfold upload_hvac_image at h
    split_ifs at h with h1 h2 h3 h4 h5 h6 <;> simp_all <;> rw [← h] <;>
      simp_all
  · intro h1
    simp [upload_hvac_image, h1]
  · intro h1 h2
    simp [upload_hvac_image, h1, h2]
  · intro h1 h2 h3
    simp [upload_hvac_image, h1, h2, h3]
  · intro h1 h2 h3 h4
    simp [upload_hvac_image, h1, h2, h3, h4]
  · intro h1 h2 h3 h4 h5
    simp [upload_hvac_image, h1, h2, h3, h4, Nat.not_lt.mp, h5]
  · intro h1 h2 h3 h4 h5 h6
    simp [upload_hvac_image, h1, h2, h3, h4, h5, h6, Nat.not_le.mpr h5]

theorem C3_witness :
    upload_hvac_image "id" seedRegistry freshConsultation "outdoor_unit"
      "big_picture" "image/jpeg" "f.jpg" = .error .prematureUpload
    ∧ (⟨"images_uploaded", [],
          [uploadedImage "id" demoC "outdoor_unit" "big_picture" "f.jpg"],
          0, [], none, none⟩ : Consultation).images =
        demoC.images ++ [uploadedImage "id" demoC "outdoor_unit"
          "big_picture" "f.jpg"] :=
  ⟨(C3_upload_hvac_image_spec "id" seedRegistry freshConsultation
      "outdoor_unit" "big_picture" "image/jpeg" "f.jpg").2.2.1 (by decide!),
   ((C3_upload_hvac_image_spec "id" seedRegistry demoC "outdoor_unit"
      "big_picture" "image/jpeg" "f.jpg").2.1 _ (by decide!)).1⟩

/-! ## C4 — the discount cache is re-derived from the image list -/

theorem recomputeDiscount_foldl (reg : List CatEntry) (imgs : List ImageRec) :
    ∀ acc : List String × ℕ,
      reg.foldl
        (fun acc e =>
          if e.sub_categories.length ≤ countCat imgs e.category then
            (acc.1 ++ [e.category], acc.2 + e.discount_amount)
          else acc) acc =
      (acc.1 ++ completedList reg imgs, acc.2 + discountSum reg imgs) := by
  induction reg with
  | nil => intro acc; simp [completedList, discountSum]
  | cons e es ih =>
    intro acc
    by_cases h : e.sub_categories.length ≤ countCat imgs e.category
    · rw [List.foldl_cons, if_pos h, ih]
      unfold completedList discountSum
      rw [List.filter_cons_of_pos (by simp [h])]
      simp [List.append_assoc]
      omega
    · rw [List.foldl_cons, if_neg h, ih]
      unfold completedList discountSum
      rw [List.filter_cons_of_neg (by simp [h])]

theorem recomputeDiscount_eq (reg : List CatEntry) (imgs : List ImageRec) :
    recomputeDiscount reg imgs = (completedList reg imgs, discountSum reg imgs) := by
  unfold recomputeDiscount
  rw [recomputeDiscount_foldl]
  simp

theorem countCat_perm {imgs imgs' : List ImageRec}
    (h : imgs.Perm imgs') (cat : String) :
    countCat imgs cat = countCat imgs' cat :=
  (h.filter _).length_eq

/-- C4: after every successful upload `total_discount` equals the sum of
`discount_amount` over the registry categories whose uploaded-image count
reaches their declared sub-category count, and `completed_categories` is
exactly the list of those keys; the recomputation is a pure function of the
image multiset (permutation invariant), and the concrete two-step
`outdoor_unit` scenario earns exactly that category's 150 discount. -/
theorem C4_total_discount_invariant :
    (∀ (cid : String) (reg : List CatEntry) (c : Consultation)
       (category sub_category content_type filename : String)
       (c' : Consultation),
      upload_hvac_image cid reg c category sub_category content_type
        filename = .ok c' →
      c'.total_discount = discountSum reg c'.images
      ∧ c'.completed_categories = completedList reg c'.images)
    ∧ (∀ (reg : List CatEntry) (imgs imgs' : List ImageRec), imgs.Perm imgs' →
        discountSum reg imgs = discountSum reg imgs'
        ∧ completedList reg imgs = completedList reg imgs')
    ∧ ((upload_hvac_image "id" seedRegistry demoC "outdoor_unit"
          "big_picture" "image/jpeg" "a.jpg").bind
        (fun c1 => upload_hvac_image "id" seedRegistry c1 "outdoor_unit"
          "data_plate" "image/jpeg" "b.jpg")).map
        (fun c2 => (c2.total_discount, c2.completed_categories)) =
        .ok (150, ["outdoor_unit"]) := by
  refine ⟨?_, ?_, by decide!⟩
  · intro cid reg c category sub_category content_type filename c' h
    unfold upload_hvac_image at h
    split_ifs at h with h1 h2 h3 h4 h5 h6 <;> simp_all <;> rw [← h] <;>
      simp [recomputeDiscount_eq]
  · intro reg imgs imgs' h
    have hfun :
        (fun (e : CatEntry) =>
          decide (e.sub_categories.length ≤ countCat imgs e.category)) =
        (fun (e : CatEntry) =>
          decide (e.sub_categories.length ≤ countCat imgs' e.category)) := by
      funext e
      rw [countCat_perm h]
    unfold discountSum completedList
    rw [hfun]
    exact ⟨rfl, rfl⟩

theorem C4_witness :
    (⟨"images_uploaded", [],
      [⟨1, "id/hvac_images/outdoor_unit/big_picture_1", "a.jpg",
        "outdoor_unit", "big_picture",
        "id/hvac_images/outdoor_unit/big_picture_1"⟩,
       ⟨2, "id/hvac_images/outdoor_unit/data_plate_2", "b.jpg",
        "outdoor_unit", "data_plate",
        "id/hvac_images/outdoor_unit/data_plate_2"⟩],
      150, ["outdoor_unit"], none, none⟩ : Consultation).total_discount =
      discountSum seedRegistry
        (⟨"images_uploaded", [],
          [⟨1, "id/hvac_images/outdoor_unit/big_picture_1", "a.jpg",
            "outdoor_unit", "big_picture",
            "id/hvac_images/outdoor_unit/big_picture_1"⟩,
           ⟨2, "id/hvac_images/outdoor_unit/data_plate_2", "b.jpg",
            "outdoor_unit", "data_plate",
            "id/hvac_images/outdoor_unit/data_plate_2"⟩],
          150, ["outdoor_unit"], none, none⟩ : Consultation).images :=
  (C4_total_discount_invariant.1 "id" seedRegistry
    (⟨"images_uploaded", [],
      [⟨1, "id/hvac_images/outdoor_unit/big_picture_1", "a.jpg",
        "outdoor_unit", "big_picture",
        "id/hvac_images/outdoor_unit/big_picture_1"⟩],
      0, [], none, none⟩ : Consultation)
    "outdoor_unit" "data_plate" "image/jpeg" "b.jpg" _ (by decide!)).1

/-! ## C10 — category/sub-category pairing is not checked against the
registry -/

/-- C10: the upload validation checks `category` and `sub_category` against
two independent flat lists only.  Even when the registry declares the
sub-category nowhere under the chosen category, an otherwise-valid upload
is accepted and still counts toward that category's uploaded-image count;
concretely, uploading `recent_bill` and `main_thermostat` under
`outdoor_unit` (neither declared there) completes the category and earns
its 150 discount. -/
theorem C10_cross_category_upload :
    (∀ (cid : String) (reg : List CatEntry) (c : Consultation)
       (category sub_category content_type filename : String),
      (c.status = "answers_submitted" ∨ c.status = "estimate_ready" ∨
        c.status = "images_uploaded") →
      category ∈ valid_categories →
      sub_category ∈ valid_sub_categories →
      content_type.startsWith "image/" = true →
      c.images.length < 7 →
      c.images.any (fun i => i.category == category &&
        i.sub_category == sub_category) = false →
      (∀ e ∈ reg, e.category = category →
        ∀ sc ∈ e.sub_categories, sc.key ≠ sub_category) →
      isOkE (upload_hvac_image cid reg c category sub_category content_type
        filename) = true
      ∧ (upload_hvac_image cid reg c category sub_category content_type
          filename).map (fun c' => countCat c'.images category) =
        .ok (countCat c.images category + 1))
    ∧ ((upload_hvac_image "id" seedRegistry demoC "outdoor_unit"
          "recent_bill" "image/jpeg" "a.jpg").bind
        (fun c1 => upload_hvac_image "id" seedRegistry c1 "outdoor_unit"
          "main_thermostat" "image/jpeg" "b.jpg")).map
        (fun c2 => (c2.total_discount, c2.completed_categories)) =
        .ok (150, ["outdoor_unit"]) := by
  refine ⟨?_, by decide!⟩
  intro cid reg c category sub_category content_type filename
    h1 h2 h3 h4 h5 h6 _hreg
  unfold upload_hvac_image
  rw [if_neg (not_not_intro h1), if_neg (not_not_intro h2),
    if_neg (not_not_intro h3), if_neg (by simp [h4]),
    if_neg (Nat.not_le.mpr h5), if_neg (by simp [h6])]
  refine ⟨rfl, ?_⟩
  simp [Except.map, countCat, List.filter_append, uploadedImage]

theorem C10_witness :
    isOkE (upload_hvac_image "id" seedRegistry demoC "outdoor_unit"
      "recent_bill" "image/jpeg" "a.jpg") = true
    ∧ (upload_hvac_image "id" seedRegistry demoC "outdoor_unit"
        "recent_bill" "image/jpeg" "a.jpg").map
        (fun c' => countCat c'.images "outdoor_unit") =
      .ok (countCat demoC.images "outdoor_unit" + 1) :=
  C10_cross_category_upload.1 "id" seedRegistry demoC "outdoor_unit"
    "recent_bill" "image/jpeg" "a.jpg" (by decide!) (by decide!) (by decide!)
    (by decide!) (by decide!) (by decide!) (by decide!)

/-! ## C5 — estimate generation -/

/-- Both components of the answer scan yield `none` or one of the stored
answer values, so string-only answer sets scan to string-or-absent
results. -/
theorem pickStep_foldl_str (qa : List (String × FormattedAnswer))
    (hqa : ∀ p ∈ qa, (p : String × FormattedAnswer).2.answer.isStr = true) :
    ∀ acc : Option AnsVal × Option AnsVal,
      (∀ v, acc.1 = some v → v.isStr = true) →
      (∀ v, acc.2 = some v → v.isStr = true) →
      (∀ v, (qa.foldl pickStep acc).1 = some v → v.isStr = true)
      ∧ (∀ v, (qa.foldl pickStep acc).2 = some v → v.isStr = true) := by
  induction qa with
  | nil => intro acc h1 h2; exact ⟨h1, h2⟩
  | cons p ps ih =>
    intro acc h1 h2
    have hp : p.2.answer.isStr = true := hqa p (List.mem_cons_self p ps)
    have hps : ∀ q ∈ ps, (q : String × FormattedAnswer).2.answer.isStr = true :=
      fun q hq => hqa q (List.mem_cons_of_mem p hq)
    rw [List.foldl_cons]
    refine ih hps (pickStep acc p) ?_ ?_
    · intro v hv
      simp only [pickStep] at hv
      split_ifs at hv <;>
        first
          | exact h1 v hv
          | (rw [← Option.some.inj hv]; exact hp)
    · intro v hv
      simp only [pickStep] at hv
      split_ifs at hv <;>
        first
          | exact h2 v hv
          | (rw [← Option.some.inj hv]; exact hp)

/-- C5: counterexample.  A session whose stored system-count answer is the
JSON number 2 has non-empty quiz answers, yet estimate generation raises
(`extract_system_count` runs outside the fallback guard and `"1" in 2.0`
is a `TypeError`), contradicting both "fails iff quiz_answers is empty"
and "estimate generation never hard-fails when answers exist". -/
theorem C5_counterexample :
    numericCountC.quiz_answers ≠ []
    ∧ numericCountC.status = "answers_submitted"
    ∧ generate_pricing_estimate pricingMatrix numericCountC =
        .error .internalError := by
  refine ⟨by decide!, rfl, by decide!⟩

/-- C5 amended: generation fails with the missing-answers error exactly on
empty `quiz_answers`; when every stored answer value is a string the
pricing computation cannot raise, and generation persists its estimate and
unconditionally sets the status to `estimate_ready`; an exception inside
`calculate_estimate` (e.g. a truthy non-string square-footage answer) is
replaced by the hardcoded fallback estimate — but a truthy numeric
system-count answer raises outside that guard. -/
theorem C5_amended_generate_estimate :
    (∀ (m : List Row) (c : Consultation), c.quiz_answers = [] →
      generate_pricing_estimate m c = .error .missingAnswers)
    ∧ (∀ (m : List Row) (c : Consultation),
        (∀ p ∈ c.quiz_answers,
          (p : String × FormattedAnswer).2.answer.isStr = true) →
        isOkE (calculate_pricing_estimate m c.quiz_answers) = true)
    ∧ (∀ (m : List Row) (c : Consultation) (e : Estimate) (m' : List Row),
        c.quiz_answers ≠ [] →
        calculate_pricing_estimate m c.quiz_answers = .ok (e, m') →
        generate_pricing_estimate m c =
          .ok ({ c with pricing_estimate := some e,
                        status := "estimate_ready" }, m'))
    ∧ (∀ (m : List Row) (c : Consultation) (q : ℚ),
        c.quiz_answers ≠ [] →
        (pickAnswers c.quiz_answers).1 = some (.vnum q) → q ≠ 0 →
        (pickAnswers c.quiz_answers).2 = none →
        generate_pricing_estimate m c =
          .ok ({ c with pricing_estimate := some fallbackEstimate,
                        status := "estimate_ready" }, m)) := by
  refine ⟨?_, ?_, ?_, ?_⟩
  · intro m c h
    simp [generate_pricing_estimate, h]
  · intro m c h
    have key := pickStep_foldl_str c.quiz_answers h (none, none)
      (by intro v hv; cases hv) (by intro v hv; cases hv)
    simp only [calculate_pricing_estimate]
    rcases h2 : (pickAnswers c.quiz_answers).2 with _ | v2
    · simp [extractSystemCountAns, isOkE]
    · have hv2 : v2.isStr = true := key.2 v2 h2
      rcases v2 with s | q | l | _
      · cases ht : (AnsVal.vstr s).truthy <;>
          simp [extractSystemCountAns, ht, isOkE]
      · exact absurd hv2 (by simp [AnsVal.isStr])
      · exact absurd hv2 (by simp [AnsVal.isStr])
      · exact absurd hv2 (by simp [AnsVal.isStr])
  · intro m c e m' h hc
    simp [generate_pricing_estimate, h, hc]
  · intro m c q h h1 hq h2
    have hcalc : calculate_pricing_estimate m c.quiz_answers =
        .ok (fallbackEstimate, m) := by
      simp only [calculate_pricing_estimate]
      rw [h2, h1]
      simp [extractSystemCountAns, guardedCalc, AnsVal.truthy, hq]
    simp [generate_pricing_estimate, h, hcalc]

theorem C5_witness :
    generate_pricing_estimate pricingMatrix stringAnswersC =
      .ok ({ stringAnswersC with
              pricing_estimate := some
                ⟨⟨"Budget-Focused", 9500, 11500⟩,
                 ⟨"Efficiency & Value", 13500, 15500⟩,
                 ⟨"Ultimate Comfort", 17000, 19500⟩, 3.5, 1, none, none, none⟩
              status := "estimate_ready" }, pricingMatrix) :=
  C5_amended_generate_estimate.2.2.1 pricingMatrix stringAnswersC
    ⟨⟨"Budget-Focused", 9500, 11500⟩, ⟨"Efficiency & Value", 13500, 15500⟩,
     ⟨"Ultimate Comfort", 17000, 19500⟩, 3.5, 1, none, none, none⟩
    pricingMatrix (by decide!) (by decide!)

/-! ## C6 — answer re-submission -/

/-- C6: counterexample.  Submitting the same answers twice: the first call
succeeds, but the second call — identical formatted answers while the
status is already `answers_submitted` — writes an unchanged document, so
`modified_count` is 0 and the handler fails with
"Failed to update consultation" instead of succeeding. -/
theorem C6_counterexample :
    submit_consultation_answers qCatalog freshConsultation bobAnswers =
      .ok bobConsultation
    ∧ submit_consultation_answers qCatalog bobConsultation bobAnswers =
      .error .updateFailed := by
  refine ⟨by decide!, by decide!⟩

/-- C6 amended: a (re-)submission that passes validation fully overwrites
`quiz_answers` with the newly formatted answers and sets the status to
`answers_submitted`, provided the write changes the document; when the
formatted answers equal the stored ones and the status is already
`answers_submitted`, the handler fails with the update-failed error;
the stored result never depends on the previously stored answers. -/
theorem C6_amended_submit_overwrite :
    (∀ (questions : List Question) (c : Consultation)
       (answers : List (String × AnsVal))
       (formatted : List (String × FormattedAnswer)),
      missingRequired questions answers = none →
      formatAnswers questions answers = .ok formatted →
      ¬ (c.quiz_answers = formatted ∧ c.status = "answers_submitted") →
      submit_consultation_answers questions c answers =
        .ok { c with quiz_answers := formatted,
                     status := "answers_submitted" })
    ∧ (∀ (questions : List Question) (c : Consultation)
         (answers : List (String × AnsVal)),
        missingRequired questions answers = none →
        formatAnswers questions answers = .ok c.quiz_answers →
        c.status = "answers_submitted" →
        submit_consultation_answers questions c answers =
          .error .updateFailed)
    ∧ (∀ (questions : List Question) (c₁ c₂ d₁ d₂ : Consultation)
         (answers : List (String × AnsVal)),
        submit_consultation_answers questions c₁ answers = .ok d₁ →
        submit_consultation_answers questions c₂ answers = .ok d₂ →
        d₁.quiz_answers = d₂.quiz_answers ∧ d₁.status = d₂.status
        ∧ d₁.status = "answers_submitted") := by
  refine ⟨?_, ?_, ?_⟩
  · intro questions c answers formatted hm hf hne
    simp [submit_consultation_answers, hm, hf, hne]
  · intro questions c answers hm hf hs
    simp [submit_consultation_answers, hm, hf, hs]
  · intro questions c₁ c₂ d₁ d₂ answers h1 h2
    unfold submit_consultation_answers at h1 h2
    rcases hm : missingRequired questions answers with _ | qt
    · rcases hf : formatAnswers questions answers with e | formatted
      · simp [hm, hf] at h1
      · simp only [hm, hf] at h1 h2
        split_ifs at h1 h2
        rw [← Except.ok.inj h1, ← Except.ok.inj h2]
        simp
    · simp [hm] at h1

theorem C6_amended_witness :
    submit_consultation_answers qCatalog bobConsultation
      [("q1", .vstr "Alice")] =
      .ok { bobConsultation with
              quiz_answers :=
                [("q1", ⟨"What is your full name?", "text", 1, .vstr "Alice"⟩)]
              status := "answers_submitted" } :=
  C6_amended_submit_overwrite.1 qCatalog bobConsultation
    [("q1", .vstr "Alice")]
    [("q1", ⟨"What is your full name?", "text", 1, .vstr "Alice"⟩)]
    (by decide!) (by decide!) (by decide!)

end ProLinkHub
